import Mathlib

/-!
Shallow embedding of `yt_dlp_downloader.py` (abriljordan/video_downloader).

The program is a CLI wrapper around the external `yt-dlp` binary.  All
external effects (subprocess runs, JSON parsing by the standard library,
the filesystem) are modelled explicitly: a `World` record carries the
outcome of each external call, and the embedded functions return the
lines they print, the subprocess commands they issue and their results.
Machine-level details that the claims do not touch (Unicode word
characters in regexes are restricted to ASCII; the exact English text of
CPython exception messages is paraphrased) are noted at the definition.
-/

namespace YtDlp

/-! ### URL validation (`validate_youtube_url`, source lines 26-38)

The three regex patterns are literal strings with two optional literal
groups (`(?:https?://)?` and `(?:www\.)?`) followed by `[\w-]+`.
`re.match` anchors at the start of the string and succeeds as soon as
the literal prefix for some choice of the optional groups is present and
at least one word-or-hyphen character follows.  `\w` is modelled as the
ASCII word characters (letter, digit, underscore). -/

/-- A character matched by the regex class `[\w-]` (ASCII fragment). -/
def isWordChar (c : Char) : Bool := c.isAlphanum || c == '_' || c == '-'

/-- The expansions of the optional scheme group `(?:https?://)?`. -/
def schemeOptions : List String := ["", "http://", "https://"]

/-- The expansions of the optional `(?:www\.)?` group. -/
def wwwOptions : List String := ["", "www."]

/-- The literal middle part of each of the three patterns, in source order. -/
def hostPatterns : List String :=
  ["youtube.com/watch?v=", "youtu.be/", "youtube.com/embed/"]

/-- After the literal prefix, `[\w-]+` needs at least one word-or-hyphen
character; anything may follow (`re.match` is prefix matching). -/
def matchTail : List Char → Bool
  | [] => false
  | c :: _ => isWordChar c

/-- Match a literal character list at the front of `l`, then `[\w-]+`. -/
def matchLiteralThen : List Char → List Char → Bool
  | [], rest => matchTail rest
  | _ :: _, [] => false
  | c :: cs, d :: ds => c == d && matchLiteralThen cs ds

/-- `re.match` of one pattern: some expansion of the optional groups
followed by the host literal matches a prefix of the input. -/
def patternMatches (host : String) (l : List Char) : Bool :=
  schemeOptions.any fun s => wwwOptions.any fun w =>
    matchLiteralThen (s ++ w ++ host).data l

/-- `validate_youtube_url` (source lines 26-38): true iff one of the three
patterns matches at the start of the string. -/
def validate_youtube_url (url : String) : Bool :=
  hostPatterns.any fun h => patternMatches h url.data

/-- Spec-level shape predicate: the string decomposes into an optional
scheme, an optional `www.`, one of the three host literals, one
word-or-hyphen character, and an arbitrary remainder. -/
def MatchesShape (url : String) : Prop :=
  ∃ h ∈ hostPatterns, ∃ s ∈ schemeOptions, ∃ w ∈ wwwOptions,
    ∃ c : Char, ∃ rest : List Char,
      isWordChar c = true ∧ url.data = (s ++ w ++ h).data ++ c :: rest

lemma matchTail_iff (l : List Char) :
    matchTail l = true ↔ ∃ c rest, isWordChar c = true ∧ l = c :: rest := by
  cases l with
  | nil => simp [matchTail]
  | cons c cs =>
    simp only [matchTail]
    constructor
    · intro h; exact ⟨c, cs, h, rfl⟩
    · rintro ⟨c', rest, hw, heq⟩
      cases heq; exact hw

lemma matchLiteralThen_iff (lit l : List Char) :
    matchLiteralThen lit l = true ↔
      ∃ c rest, isWordChar c = true ∧ l = lit ++ c :: rest := by
  induction lit generalizing l with
  | nil =>
    simpa using matchTail_iff l
  | cons a as ih =>
    cases l with
    | nil =>
      simp [matchLiteralThen]
    | cons d ds =>
      simp only [matchLiteralThen, Bool.and_eq_true, beq_iff_eq, ih,
        List.cons_append, List.cons.injEq]
      constructor
      · rintro ⟨rfl, c, rest, hw, rfl⟩
        exact ⟨c, rest, hw, rfl, rfl⟩
      · rintro ⟨c, rest, hw, rfl, rfl⟩
        exact ⟨rfl, c, rest, hw, rfl⟩

lemma validate_youtube_url_iff (url : String) :
    validate_youtube_url url = true ↔ MatchesShape url := by
  simp only [validate_youtube_url, patternMatches, MatchesShape,
    List.any_eq_true, matchLiteralThen_iff]

/-! ### Metadata values and the `--info` display (source lines 171-180)

The JSON object returned by `json.loads` is modelled as an association
list from string keys to Python values; the claims only need string and
integer values.  `dict.get(key, default)` is `dictGet`.  The view-count
line formats its value with the format spec `,` (thousands grouping),
which CPython accepts for `int` but rejects for `str` with a
`ValueError`; `formatComma` reflects this (the message paraphrases the
CPython text). -/

/-- A Python value as it appears in the parsed metadata mapping. -/
inductive PyVal where
  | vstr (s : String)
  | vint (n : Int)
deriving DecidableEq

/-- The parsed metadata mapping (a Python dict, read-only). -/
def Metadata := List (String × PyVal)

instance : DecidableEq Metadata := by
  unfold Metadata; infer_instance

/-- `dict.get(key, default)`. -/
def dictGet (m : Metadata) (key : String) (dflt : PyVal) : PyVal :=
  match List.find? (fun kv => kv.1 == key) m with
  | some kv => kv.2
  | none => dflt

/-- `str(v)`: plain f-string interpolation of a value. -/
def pyStr : PyVal → String
  | .vstr s => s
  | .vint n => toString n

/-- Insert a comma after every third digit, on the reversed digit list. -/
def commaRev : List Char → Nat → List Char
  | [], _ => []
  | [c], _ => [c]
  | c :: cs, k => if k == 2 then c :: ',' :: commaRev cs 0 else c :: commaRev cs (k + 1)

/-- Thousands grouping of a digit string, as Python `format(n, ",")`. -/
def commaGroup (s : String) : String :=
  String.mk (commaRev s.data.reverse 0).reverse

/-- Python `format(v, ",")`: groups integers; raises `ValueError` on a
string value (message paraphrases the CPython ValueError text). -/
def formatComma : PyVal → Except String String
  | .vint n => .ok (if n < 0 then "-" ++ commaGroup (toString (-n)) else commaGroup (toString n))
  | .vstr _ => .error "Cannot specify comma format spec with a str value"

/-- The five print statements of the `--info` display (source lines
175-179), in order.  Each print happens only after the previous one
succeeded; the view-count line evaluates `formatComma` on
`info.get("view_count", "Unknown")` and raises when that value is a
string.  Returns the lines actually printed, and the message of the
escaping exception, if any. -/
def displayInfo (info : Metadata) : List String × Option String :=
  let l1 := "[*] Video Title: " ++ pyStr (dictGet info "title" (.vstr "Unknown"))
  let l2 := "[*] Duration: " ++ pyStr (dictGet info "duration" (.vstr "Unknown")) ++ " seconds"
  let l3 := "[*] Uploader: " ++ pyStr (dictGet info "uploader" (.vstr "Unknown"))
  match formatComma (dictGet info "view_count" (.vstr "Unknown")) with
  | .error e => ([l1, l2, l3], some e)
  | .ok v =>
    let l4 := "[*] View Count: " ++ v
    let l5 := "[*] Upload Date: " ++ pyStr (dictGet info "upload_date" (.vstr "Unknown"))
    ([l1, l2, l3, l4, l5], none)

/-! ### Subprocess results and `get_video_info` (source lines 40-57) -/

/-- The outcome of a completed `subprocess.run` with captured output. -/
structure RunResult where
  returncode : Int
  stdout : String
  stderr : String
deriving DecidableEq

/-- The command list built by `get_video_info` (source lines 43-48). -/
def infoCmd (url : String) : List String :=
  ["yt-dlp", "--dump-json", "--no-playlist", url]

/-- `get_video_info` (source lines 40-57).  `subprocess.run(..., check=True)`
raises `CalledProcessError` exactly when the exit status is non-zero; the
function catches it, prints the captured stderr and returns `None`.  On a
zero exit it applies `json.loads` to stdout — modelled by the abstract
`parse` argument, `none` meaning `JSONDecodeError` — and on a parse
failure prints a message and returns `None`.  Result: (printed lines,
returned value); the function is total, so no exception reaches the
caller. -/
def get_video_info (run : RunResult) (parse : String → Option Metadata) :
    List String × Option Metadata :=
  if run.returncode ≠ 0 then
    (["[!] Error getting video info: " ++ run.stderr], none)
  else
    match parse run.stdout with
    | some m => ([], some m)
    | none => (["[!] Error parsing video information"], none)

/-! ### `list_formats` (source lines 59-77) -/

/-- The command list built by `list_formats` (source lines 64-69). -/
def listCmd (url : String) : List String :=
  ["yt-dlp", "--list-formats", "--no-playlist", url]

/-- `list_formats` (source lines 59-77): prints a header, runs the tool
with `check=True`, relays stdout verbatim on success, prints the captured
stderr and returns false on a non-zero exit. -/
def list_formats (url : String) (run : RunResult) : List String × Bool :=
  let pre := "[*] Getting available formats for: " ++ url
  if run.returncode ≠ 0 then
    ([pre, "[!] Error listing formats: " ++ run.stderr], false)
  else
    ([pre, run.stdout], true)

/-! ### `download_video` (source lines 79-130)

The filesystem is modelled as the list of existing directories, each a
path split into components.  `os.makedirs(path, exist_ok=True)` creates
every missing ancestor and never fails on an existing directory.  The
external run is an oracle: `Except.error msg` is an exception other than
`CalledProcessError` raised by `subprocess.run` (e.g. the binary
vanishing), `Except.ok rc` is a completed process with exit status `rc`;
with `check=True` a non-zero `rc` surfaces as `CalledProcessError`.
`str(e)` of a `CalledProcessError` is paraphrased. -/

/-- Split a path at `/` separators into its components (the view of the
path that `os.makedirs` walks); structurally recursive so that it
evaluates inside the kernel. -/
def splitComps : List Char → List Char → List String
  | [], acc => [String.mk acc.reverse]
  | c :: cs, acc =>
    if c = '/' then String.mk acc.reverse :: splitComps cs []
    else splitComps cs (c :: acc)

/-- The component list of a path string; never empty. -/
def splitPath (s : String) : List String := splitComps s.data []

/-- Every non-empty prefix of the component list: the directories
`os.makedirs` guarantees to exist afterwards. -/
def pathAncestors (p : List String) : List (List String) :=
  (List.range p.length).map fun k => p.take (k + 1)

/-- `os.makedirs(p, exist_ok=True)`: create each missing ancestor;
idempotent and total (never raises for an existing directory). -/
def makedirs (fs : List (List String)) (p : List String) : List (List String) :=
  fs ++ (pathAncestors p).filter fun q => ! decide (q ∈ fs)

/-- An observable step of `download_video`, in order of occurrence. -/
inductive DlEvent where
  | mkdir (path : List String)
  | proc (cmd : List String)
deriving DecidableEq

/-- The argument list built by `download_video` (source lines 95-110). -/
def buildDownloadCmd (output_path format_spec : String) (audio_only : Bool)
    (url : String) : List String :=
  ["yt-dlp",
   "--output", output_path ++ "/%(title)s.%(ext)s",
   "--no-playlist",
   "--progress"] ++
  (if audio_only then
    ["--extract-audio", "--audio-format", "mp3",
     "--format", "bestaudio[ext=m4a]/bestaudio[ext=mp3]/bestaudio"]
   else
    ["--format", format_spec]) ++
  [url]

/-- The result of one `download_video` invocation. -/
structure DownloadResult where
  fs : List (List String)
  events : List DlEvent
  prints : List String
  success : Bool

/-- `download_video` (source lines 79-130).  Creates the output directory,
builds the command, announces it, runs the tool (`check=True`, output not
captured).  A zero exit prints the success line and returns true; a
non-zero exit raises `CalledProcessError`, caught and reported as a
download error; any other exception is caught and reported as an
unexpected error; both return false.  The `returncode == 0` test keeps
the unreachable else-branch of the source. -/
def download_video (fs : List (List String)) (url : String)
    (output_path : String) (format_spec : String) (audio_only : Bool)
    (rb : Except String Int) : DownloadResult :=
  let comps := splitPath output_path
  let fs2 := makedirs fs comps
  let cmd := buildDownloadCmd output_path format_spec audio_only url
  let pre := ["[*] Starting download with command: " ++ String.intercalate " " cmd,
              "[*] Output directory: " ++ output_path]
  let evs := [DlEvent.mkdir comps, DlEvent.proc cmd]
  match rb with
  | .error m => ⟨fs2, evs, pre ++ ["[!] Unexpected error: " ++ m], false⟩
  | .ok rc =>
    if rc ≠ 0 then
      ⟨fs2, evs, pre ++ ["[!] Download error: Command returned non-zero exit status "
        ++ toString rc ++ "."], false⟩
    else if rc == 0 then
      ⟨fs2, evs, pre ++ ["[+] Download completed successfully!"], true⟩
    else
      ⟨fs2, evs, pre ++ ["[!] Download failed with return code: " ++ toString rc], false⟩

/-! ### `check_yt_dlp_installed` (source lines 14-24) and `main`
(source lines 132-204)

The probe is `none` when `subprocess.run(["yt-dlp", "--version"], check=True)`
raises (`FileNotFoundError` or `CalledProcessError`, handled identically),
and `some out` with the captured stdout otherwise.  `main` is embedded as
a pure function of the parsed arguments and a `World` oracle fixing the
outcome of every external call the run could make; it returns the exit
status (`return` from `main` without `sys.exit` is status 0), the printed
lines and the subprocess command lists issued, in order. -/

/-- `check_yt_dlp_installed` (source lines 14-24): (printed lines, found). -/
def check_yt_dlp_installed (probe : Option String) : List String × Bool :=
  match probe with
  | some out => (["✅ yt-dlp version: " ++ out.trim], true)
  | none => (["❌ yt-dlp is not installed", "   Install with: pip install yt-dlp"], false)

/-- The parsed command-line arguments (source lines 147-159). -/
structure Args where
  url : String
  output : String
  format : String
  audio : Bool
  list_formats : Bool
  info : Bool

/-- Outcomes of every external call a run of `main` could make. -/
structure World where
  probe : Option String
  infoRun : RunResult
  parseJson : String → Option Metadata
  listRun : RunResult
  dlRun : Except String Int
  fs : List (List String)

/-- What a run of `main` did: exit status, printed lines, subprocess
command lists issued (in order), final filesystem. -/
structure MainResult where
  exitCode : Nat
  prints : List String
  calls : List (List String)
  fs : List (List String)

/-- The subprocess command of an event, if it is one. -/
def procCmd : DlEvent → Option (List String)
  | .proc c => some c
  | .mkdir _ => none

/-- The version-probe command run by `check_yt_dlp_installed`. -/
def versionCmd : List String := ["yt-dlp", "--version"]

/-- `main` (source lines 132-204) after successful argument parsing.
Order of the source: probe the tool (exit 1 if absent), validate the URL
(exit 1 if invalid), then dispatch: `--info` shows the metadata and
returns — a `None` or empty mapping is falsy, so the display is skipped,
and the function returns with status 0 even when the query failed; a
`ValueError` escaping the display is caught by the outer
`except Exception` handler, which prints it and exits 1.  Otherwise
`--list-formats` exits 1 on failure, else the download runs and a failure
exits 1. -/
def runMain (args : Args) (w : World) : MainResult :=
  let probeRes := check_yt_dlp_installed w.probe
  if !probeRes.2 then
    ⟨1, probeRes.1, [versionCmd], w.fs⟩
  else if !validate_youtube_url args.url then
    ⟨1, probeRes.1 ++ ["[!] Error: Invalid YouTube URL: " ++ args.url],
      [versionCmd], w.fs⟩
  else if args.info then
    let ir := get_video_info w.infoRun w.parseJson
    let calls := [versionCmd, infoCmd args.url]
    match ir.2 with
    | none => ⟨0, probeRes.1 ++ ir.1, calls, w.fs⟩
    | some info =>
      if info = ([] : Metadata) then
        ⟨0, probeRes.1 ++ ir.1, calls, w.fs⟩
      else
        match (displayInfo info).2 with
        | none => ⟨0, probeRes.1 ++ ir.1 ++ (displayInfo info).1, calls, w.fs⟩
        | some e =>
          ⟨1, probeRes.1 ++ ir.1 ++ (displayInfo info).1 ++ ["[!] Error: " ++ e],
            calls, w.fs⟩
  else if args.list_formats then
    let lr := list_formats args.url w.listRun
    ⟨if lr.2 then 0 else 1, probeRes.1 ++ lr.1, [versionCmd, listCmd args.url], w.fs⟩
  else
    let d := download_video w.fs args.url args.output args.format args.audio w.dlRun
    ⟨if d.success then 0 else 1, probeRes.1 ++ d.prints,
      [versionCmd] ++ d.events.filterMap procCmd, d.fs⟩

/-! ### Helper lemmas -/

lemma mem_makedirs {fs : List (List String)} {p q : List String} :
    q ∈ makedirs fs p ↔ q ∈ fs ∨ q ∈ pathAncestors p := by
  simp only [makedirs, List.mem_append, List.mem_filter, Bool.not_eq_true',
    decide_eq_false_iff_not]
  constructor
  · rintro (h | ⟨h, _⟩)
    · exact Or.inl h
    · exact Or.inr h
  · rintro (h | h)
    · exact Or.inl h
    · by_cases hf : q ∈ fs
      · exact Or.inl hf
      · exact Or.inr ⟨h, by simpa using hf⟩

lemma self_mem_pathAncestors {p : List String} (hp : p ≠ []) :
    p ∈ pathAncestors p := by
  cases p with
  | nil => exact absurd rfl hp
  | cons a as =>
    refine List.mem_map.mpr ⟨as.length, ?_, ?_⟩
    · simp [List.mem_range]
    · have : as.length + 1 = (a :: as).length := by simp
      rw [this]
      exact List.take_length _

lemma splitComps_ne_nil (l acc : List Char) : splitComps l acc ≠ [] := by
  induction l generalizing acc with
  | nil => simp [splitComps]
  | cons c cs ih =>
    by_cases h : c = '/'
    · simp [splitComps, h]
    · simpa [splitComps, h] using ih (c :: acc)

lemma splitPath_ne_nil (s : String) : splitPath s ≠ [] :=
  splitComps_ne_nil s.data []

lemma makedirs_idem (fs : List (List String)) (p : List String) :
    makedirs (makedirs fs p) p = makedirs fs p := by
  have h : (pathAncestors p).filter (fun q => ! decide (q ∈ makedirs fs p)) = [] := by
    refine List.filter_eq_nil_iff.mpr fun q hq => ?_
    simp [mem_makedirs.mpr (Or.inr hq)]
  show makedirs fs p ++ _ = makedirs fs p
  rw [h, List.append_nil]

lemma download_success_iff (fs : List (List String)) (url out fmt : String)
    (audio : Bool) (rb : Except String Int) :
    (download_video fs url out fmt audio rb).success = true ↔ rb = Except.ok 0 := by
  cases rb with
  | error m => simp [download_video]
  | ok rc =>
    by_cases h : rc = 0
    · subst h; simp [download_video]
    · simp [download_video, h]

lemma download_video_fs (fs : List (List String)) (url out fmt : String)
    (audio : Bool) (rb : Except String Int) :
    (download_video fs url out fmt audio rb).fs = makedirs fs (splitPath out) := by
  cases rb with
  | error m => simp [download_video]
  | ok rc =>
    by_cases h : rc = 0
    · subst h; simp [download_video]
    · simp [download_video, h]

lemma download_video_events (fs : List (List String)) (url out fmt : String)
    (audio : Bool) (rb : Except String Int) :
    (download_video fs url out fmt audio rb).events =
      [DlEvent.mkdir (splitPath out),
       DlEvent.proc (buildDownloadCmd out fmt audio url)] := by
  cases rb with
  | error m => simp [download_video]
  | ok rc =>
    by_cases h : rc = 0
    · subst h; simp [download_video]
    · simp [download_video, h]

lemma list_formats_ok_iff (url : String) (run : RunResult) :
    (list_formats url run).2 = true ↔ run.returncode = 0 := by
  by_cases h : run.returncode = 0
  · simp [list_formats, h]
  · simp [list_formats, h]

lemma runMain_probe_none (args : Args) (w : World) (h : w.probe = none) :
    runMain args w =
      ⟨1, ["❌ yt-dlp is not installed", "   Install with: pip install yt-dlp"],
       [versionCmd], w.fs⟩ := by
  simp [runMain, check_yt_dlp_installed, h]

lemma runMain_invalid_url (args : Args) (w : World) (v : String)
    (h : w.probe = some v) (hv : validate_youtube_url args.url = false) :
    runMain args w =
      ⟨1, ["✅ yt-dlp version: " ++ v.trim,
           "[!] Error: Invalid YouTube URL: " ++ args.url],
       [versionCmd], w.fs⟩ := by
  simp [runMain, check_yt_dlp_installed, h, hv]

lemma runMain_info_query_failed (args : Args) (w : World) (v : String)
    (h : w.probe = some v) (hv : validate_youtube_url args.url = true)
    (hi : args.info = true)
    (h2 : (get_video_info w.infoRun w.parseJson).2 = none) :
    runMain args w =
      ⟨0, ["✅ yt-dlp version: " ++ v.trim] ++ (get_video_info w.infoRun w.parseJson).1,
       [versionCmd, infoCmd args.url], w.fs⟩ := by
  simp [runMain, check_yt_dlp_installed, h, hv, hi, h2]

lemma runMain_info_calls (args : Args) (w : World) (v : String)
    (h : w.probe = some v) (hv : validate_youtube_url args.url = true)
    (hi : args.info = true) :
    (runMain args w).calls = [versionCmd, infoCmd args.url] := by
  simp only [runMain, check_yt_dlp_installed, h, hv, hi]
  cases h2 : (get_video_info w.infoRun w.parseJson).2 with
  | none => simp
  | some info =>
    by_cases he : info = ([] : Metadata)
    · simp [he]
    · cases h3 : (displayInfo info).2 with
      | none => simp [he, h3]
      | some e => simp [he, h3]

lemma runMain_info_exit (args : Args) (w : World) (v : String)
    (h : w.probe = some v) (hv : validate_youtube_url args.url = true)
    (hi : args.info = true) :
    (runMain args w).exitCode = 0 ∨ (runMain args w).exitCode = 1 := by
  simp only [runMain, check_yt_dlp_installed, h, hv, hi]
  cases h2 : (get_video_info w.infoRun w.parseJson).2 with
  | none => simp
  | some info =>
    by_cases he : info = ([] : Metadata)
    · simp [he]
    · cases h3 : (displayInfo info).2 with
      | none => simp [he, h3]
      | some e => simp [he, h3]

lemma runMain_list (args : Args) (w : World) (v : String)
    (h : w.probe = some v) (hv : validate_youtube_url args.url = true)
    (hi : args.info = false) (hl : args.list_formats = true) :
    runMain args w =
      ⟨if (list_formats args.url w.listRun).2 then 0 else 1,
       ["✅ yt-dlp version: " ++ v.trim] ++ (list_formats args.url w.listRun).1,
       [versionCmd, listCmd args.url], w.fs⟩ := by
  simp [runMain, check_yt_dlp_installed, h, hv, hi, hl]

lemma runMain_download (args : Args) (w : World) (v : String)
    (h : w.probe = some v) (hv : validate_youtube_url args.url = true)
    (hi : args.info = false) (hl : args.list_formats = false) :
    runMain args w =
      ⟨if (download_video w.fs args.url args.output args.format args.audio w.dlRun).success
          then 0 else 1,
       ["✅ yt-dlp version: " ++ v.trim]
         ++ (download_video w.fs args.url args.output args.format args.audio w.dlRun).prints,
       [versionCmd] ++ (download_video w.fs args.url args.output args.format args.audio
          w.dlRun).events.filterMap procCmd,
       (download_video w.fs args.url args.output args.format args.audio w.dlRun).fs⟩ := by
  simp [runMain, check_yt_dlp_installed, h, hv, hi, hl]

end YtDlp

open YtDlp

/-- C3: the validator accepts exactly the strings that start with one of
the three recognized URL shapes — an optional scheme, an optional
`www.`, one of the host literals `youtube.com/watch?v=`, `youtu.be/`,
`youtube.com/embed/`, and at least one word-or-hyphen character —
matching case-sensitively and anchored at the start; in particular the
standard watch URL is accepted and a Vimeo URL is rejected. -/
theorem url_validator_shapes :
    (∀ url : String, validate_youtube_url url = true ↔ MatchesShape url) ∧
    validate_youtube_url "https://www.youtube.com/watch?v=dQw4w9WgXcQ" = true ∧
    validate_youtube_url "https://vimeo.com/12345" = false :=
  ⟨validate_youtube_url_iff, by decide, by decide⟩

/-- C9: validation is prefix matching, not full-string matching: any
accepted string remains accepted after appending arbitrary text. -/
theorem url_validator_accepts_extensions (u t : String)
    (h : validate_youtube_url u = true) :
    validate_youtube_url (u ++ t) = true := by
  rcases (validate_youtube_url_iff u).mp h with
    ⟨hp, hhp, s, hs, w, hw, c, rest, hc, hdata⟩
  refine (validate_youtube_url_iff (u ++ t)).mpr
    ⟨hp, hhp, s, hs, w, hw, c, rest ++ t.data, hc, ?_⟩
  rw [String.data_append, hdata, List.append_assoc, List.cons_append]

/-- C9 witness: a watch-page URL followed by a space and arbitrary text
is accepted. -/
theorem url_validator_accepts_extensions_witness :
    validate_youtube_url ("https://www.youtube.com/watch?v=dQw4w9WgXcQ" ++ " some trailing text") = true :=
  url_validator_accepts_extensions "https://www.youtube.com/watch?v=dQw4w9WgXcQ"
    " some trailing text" (by decide)

/-- A well-formed metadata mapping carrying all five displayed fields. -/
def infoAllFields : Metadata :=
  [("title", .vstr "Test Video"), ("duration", .vint 213),
   ("uploader", .vstr "Channel"), ("view_count", .vint 1234567),
   ("upload_date", .vstr "20240101")]

/-- The same mapping with the `view_count` key absent. -/
def infoNoViewCount : Metadata :=
  [("title", .vstr "Test Video"), ("duration", .vint 213),
   ("uploader", .vstr "Channel"), ("upload_date", .vstr "20240101")]

/-- Arguments of an `--info` run on a valid URL. -/
def infoArgs : Args := ⟨"https://youtu.be/abc", "downloads", "best", false, false, true⟩

/-- A world where the tool is present and the metadata query succeeds but
the returned mapping lacks `view_count`. -/
def worldNoViewCount : World :=
  ⟨some "2025.01.01", ⟨0, "json", ""⟩, fun _ => some infoNoViewCount,
   ⟨0, "", ""⟩, Except.ok 0, []⟩

/-- C1: with all five fields present the display prints the five lines,
but when `view_count` is absent the thousands-grouping format spec is
applied to the placeholder string and raises a `ValueError`: only the
first three lines print, the exception escapes the display code, and the
whole `--info` run ends with exit status 1 instead of printing the
placeholder. -/
theorem info_display_view_count_bug :
    displayInfo infoAllFields =
      (["[*] Video Title: Test Video", "[*] Duration: 213 seconds",
        "[*] Uploader: Channel", "[*] View Count: 1,234,567",
        "[*] Upload Date: 20240101"], none) ∧
    displayInfo infoNoViewCount =
      (["[*] Video Title: Test Video", "[*] Duration: 213 seconds",
        "[*] Uploader: Channel"],
       some "Cannot specify comma format spec with a str value") ∧
    (runMain infoArgs worldNoViewCount).exitCode = 1 ∧
    "[!] Error: Cannot specify comma format spec with a str value"
      ∈ (runMain infoArgs worldNoViewCount).prints :=
  ⟨rfl, rfl, rfl, by decide⟩

/-- C4 counterexample: with `--format mp3 --audio`, the caller-supplied
format value does appear in the constructed argument list (as the value
of `--audio-format`), so "the format-selector expression does not appear
in the argument list" fails as a universal membership statement. -/
theorem audio_format_spec_counterexample :
    "mp3" ∈ buildDownloadCmd "downloads" "mp3" true "https://youtu.be/abc" := by
  decide

/-- C4 amended: when audio-only is requested the argument list contains
the audio-extraction flag, the fixed mp3 target encoding and the
m4a-then-mp3-then-best audio selector, and the list is entirely
independent of the caller-supplied format value (the format value is
never consulted, though its string may coincide with one of the fixed
arguments). -/
theorem audio_flags_amended (out fs1 fs2 url : String) :
    buildDownloadCmd out fs1 true url = buildDownloadCmd out fs2 true url ∧
    "--extract-audio" ∈ buildDownloadCmd out fs1 true url ∧
    "--audio-format" ∈ buildDownloadCmd out fs1 true url ∧
    "mp3" ∈ buildDownloadCmd out fs1 true url ∧
    "bestaudio[ext=m4a]/bestaudio[ext=mp3]/bestaudio" ∈ buildDownloadCmd out fs1 true url := by
  refine ⟨rfl, ?_, ?_, ?_, ?_⟩ <;> simp [buildDownloadCmd]

/-- C5: on a non-zero tool exit the metadata query prints the captured
stderr and returns no value; on unparseable output it prints a parse
failure and returns no value; the function is total, so neither case
raises to the caller. -/
theorem get_video_info_error_paths (run : RunResult) (parse : String → Option Metadata) :
    (run.returncode ≠ 0 →
      get_video_info run parse =
        (["[!] Error getting video info: " ++ run.stderr], none)) ∧
    (run.returncode = 0 → parse run.stdout = none →
      get_video_info run parse = (["[!] Error parsing video information"], none)) := by
  constructor
  · intro h
    simp [get_video_info, h]
  · intro h hp
    simp [get_video_info, h, hp]

/-- C5 witness: a failing tool run and an unparseable output, concretely. -/
theorem get_video_info_error_paths_witness :
    get_video_info ⟨1, "", "ERROR: boom"⟩ (fun _ => none) =
      (["[!] Error getting video info: ERROR: boom"], none) ∧
    get_video_info ⟨0, "not json", ""⟩ (fun _ => none) =
      (["[!] Error parsing video information"], none) :=
  ⟨(get_video_info_error_paths ⟨1, "", "ERROR: boom"⟩ (fun _ => none)).1 (by decide),
   (get_video_info_error_paths ⟨0, "not json", ""⟩ (fun _ => none)).2 rfl rfl⟩

/-- C6: the downloader reports success exactly when the external process
exits with status zero; a non-zero exit is reported as a download error
and an exception during invocation as an unexpected error, and in both
cases the downloader returns failure (it is total, so it never raises). -/
theorem download_success_iff_zero_exit (fs : List (List String))
    (url out fmt : String) (audio : Bool) (rb : Except String Int) :
    ((download_video fs url out fmt audio rb).success = true ↔ rb = Except.ok 0) ∧
    (∀ rc : Int, rb = Except.ok rc → rc ≠ 0 →
      ("[!] Download error: Command returned non-zero exit status " ++ toString rc ++ ".")
        ∈ (download_video fs url out fmt audio rb).prints) ∧
    (∀ m : String, rb = Except.error m →
      ("[!] Unexpected error: " ++ m) ∈ (download_video fs url out fmt audio rb).prints) := by
  refine ⟨download_success_iff fs url out fmt audio rb, ?_, ?_⟩
  · rintro rc rfl h
    simp [download_video, h]
  · rintro m rfl
    simp [download_video]

/-- Arguments of an `--info` run on the standard watch URL. -/
def infoFailArgs : Args :=
  ⟨"https://www.youtube.com/watch?v=dQw4w9WgXcQ", "downloads", "best", false, false, true⟩

/-- A world where the tool is present but the metadata query exits 1. -/
def worldInfoToolFail : World :=
  ⟨some "2025.01.01", ⟨1, "", "ERROR: Video unavailable"⟩, fun _ => none,
   ⟨0, "", ""⟩, Except.ok 0, []⟩

/-- C2 counterexample: a non-zero tool exit during the `--info` metadata
query prints the diagnostic, but `main` then returns normally, so the
process terminates with exit status 0, not 1 — exit status 0 here does
not mean success. -/
theorem exit_status_counterexample :
    worldInfoToolFail.infoRun.returncode ≠ 0 ∧
    infoFailArgs.info = true ∧
    validate_youtube_url infoFailArgs.url = true ∧
    (runMain infoFailArgs worldInfoToolFail).exitCode = 0 ∧
    "[!] Error getting video info: ERROR: Video unavailable"
      ∈ (runMain infoFailArgs worldInfoToolFail).prints := by
  decide

/-- C2 amended: every error in the taxonomy except a failure of the
`--info` metadata query terminates the process with exit status 1
(missing tool, invalid URL, format-listing failure, download failure);
a failed `--info` query prints its diagnostic but the program returns
normally with exit status 0, so exit status 0 occurs exactly on success
or on an `--info` run. -/
theorem exit_status_amended (args : Args) (w : World) :
    (w.probe = none → (runMain args w).exitCode = 1) ∧
    (w.probe ≠ none → validate_youtube_url args.url = false →
      (runMain args w).exitCode = 1) ∧
    (w.probe ≠ none → validate_youtube_url args.url = true → args.info = true →
      (get_video_info w.infoRun w.parseJson).2 = none →
      (runMain args w).exitCode = 0) ∧
    (w.probe ≠ none → validate_youtube_url args.url = true → args.info = false →
      args.list_formats = true → w.listRun.returncode ≠ 0 →
      (runMain args w).exitCode = 1) ∧
    (w.probe ≠ none → validate_youtube_url args.url = true → args.info = false →
      args.list_formats = false → w.dlRun ≠ Except.ok 0 →
      (runMain args w).exitCode = 1) ∧
    ((runMain args w).exitCode = 0 →
      w.probe ≠ none ∧ validate_youtube_url args.url = true ∧
      (args.info = true ∨
       (args.list_formats = true ∧ w.listRun.returncode = 0) ∨
       (args.info = false ∧ args.list_formats = false ∧ w.dlRun = Except.ok 0))) := by
  refine ⟨?_, ?_, ?_, ?_, ?_, ?_⟩
  · intro h
    rw [runMain_probe_none args w h]
  · intro hp hv
    obtain ⟨v, hpv⟩ := Option.ne_none_iff_exists'.mp hp
    rw [runMain_invalid_url args w v hpv hv]
  · intro hp hv hi h2
    obtain ⟨v, hpv⟩ := Option.ne_none_iff_exists'.mp hp
    rw [runMain_info_query_failed args w v hpv hv hi h2]
  · intro hp hv hi hl hnz
    obtain ⟨v, hpv⟩ := Option.ne_none_iff_exists'.mp hp
    rw [runMain_list args w v hpv hv hi hl]
    have : (list_formats args.url w.listRun).2 = false := by
      rcases Bool.eq_false_or_eq_true (list_formats args.url w.listRun).2 with h | h
      · exact absurd ((list_formats_ok_iff _ _).mp h) hnz
      · exact h
    simp [this]
  · intro hp hv hi hl hne
    obtain ⟨v, hpv⟩ := Option.ne_none_iff_exists'.mp hp
    rw [runMain_download args w v hpv hv hi hl]
    have : (download_video w.fs args.url args.output args.format args.audio
        w.dlRun).success = false := by
      rcases Bool.eq_false_or_eq_true (download_video w.fs args.url args.output
          args.format args.audio w.dlRun).success with h | h
      · exact absurd ((download_success_iff _ _ _ _ _ _).mp h) hne
      · exact h
    simp [this]
  · intro h0
    cases hpr : w.probe with
    | none =>
      rw [runMain_probe_none args w hpr] at h0
      simp at h0
    | some v =>
      by_cases hv : validate_youtube_url args.url = true
      · refine ⟨by simp [hpr], hv, ?_⟩
        by_cases hi : args.info = true
        · exact Or.inl hi
        · have hi' : args.info = false := by simpa using hi
          by_cases hl : args.list_formats = true
          · refine Or.inr (Or.inl ⟨hl, ?_⟩)
            rw [runMain_list args w v hpr hv hi' hl] at h0
            by_cases hok : (list_formats args.url w.listRun).2 = true
            · exact (list_formats_ok_iff _ _).mp hok
            · simp [Bool.eq_false_iff.mpr hok] at h0
          · have hl' : args.list_formats = false := by simpa using hl
            refine Or.inr (Or.inr ⟨hi', hl', ?_⟩)
            rw [runMain_download args w v hpr hv hi' hl'] at h0
            by_cases hs : (download_video w.fs args.url args.output args.format
                args.audio w.dlRun).success = true
            · exact (download_success_iff _ _ _ _ _ _).mp hs
            · simp [Bool.eq_false_iff.mpr hs] at h0
      · rw [runMain_invalid_url args w v hpr (by simpa using hv)] at h0
        simp at h0

/-- C2 witness: a failed `--info` query exits 0; a missing tool exits 1. -/
theorem exit_status_amended_witness :
    (runMain infoFailArgs worldInfoToolFail).exitCode = 0 ∧
    (runMain ⟨"x", "downloads", "best", false, false, false⟩
      ⟨none, ⟨0, "", ""⟩, fun _ => none, ⟨0, "", ""⟩, Except.ok 0, []⟩).exitCode = 1 :=
  ⟨(exit_status_amended infoFailArgs worldInfoToolFail).2.2.1
      (by decide) (by decide) rfl rfl,
   (exit_status_amended ⟨"x", "downloads", "best", false, false, false⟩
      ⟨none, ⟨0, "", ""⟩, fun _ => none, ⟨0, "", ""⟩, Except.ok 0, []⟩).1 rfl⟩

/-- C7: when the version probe fails (binary absent or probe exits
non-zero), the program prints the absence notice with the install hint
and exits with status 1; the only subprocess command issued is the
version probe, and the result does not depend on the URL at all, so URL
validation never runs. -/
theorem missing_tool_early_exit (args : Args) (w : World) (h : w.probe = none) :
    runMain args w =
      ⟨1, ["❌ yt-dlp is not installed", "   Install with: pip install yt-dlp"],
       [versionCmd], w.fs⟩ :=
  runMain_probe_none args w h

/-- C7 witness: with the tool absent, even an invalid URL never gets
validated — the run exits 1 after the probe alone. -/
theorem missing_tool_early_exit_witness :
    runMain ⟨"https://vimeo.com/12345", "downloads", "best", false, false, false⟩
      ⟨none, ⟨0, "", ""⟩, fun _ => none, ⟨0, "", ""⟩, Except.ok 0, []⟩ =
      ⟨1, ["❌ yt-dlp is not installed", "   Install with: pip install yt-dlp"],
       [versionCmd], []⟩ :=
  missing_tool_early_exit ⟨"https://vimeo.com/12345", "downloads", "best", false, false, false⟩
    ⟨none, ⟨0, "", ""⟩, fun _ => none, ⟨0, "", ""⟩, Except.ok 0, []⟩ rfl

/-- C8: the downloader creates the output directory and all its
ancestors before the external tool is invoked (the mkdir event precedes
the process event), and a second invocation on the resulting filesystem
leaves it unchanged: directory creation is idempotent and cannot fail on
an existing directory (`exist_ok=True` makes `makedirs` total). -/
theorem output_dir_creation_idempotent (fs : List (List String))
    (url out fmt : String) (audio : Bool) (rb : Except String Int) :
    splitPath out ∈ (download_video fs url out fmt audio rb).fs ∧
    (∀ q ∈ pathAncestors (splitPath out),
      q ∈ (download_video fs url out fmt audio rb).fs) ∧
    (download_video fs url out fmt audio rb).events =
      [DlEvent.mkdir (splitPath out),
       DlEvent.proc (buildDownloadCmd out fmt audio url)] ∧
    (download_video (download_video fs url out fmt audio rb).fs
        url out fmt audio rb).fs =
      (download_video fs url out fmt audio rb).fs := by
  refine ⟨?_, ?_, download_video_events fs url out fmt audio rb, ?_⟩
  · rw [download_video_fs]
    exact mem_makedirs.mpr (Or.inr (self_mem_pathAncestors (splitPath_ne_nil out)))
  · intro q hq
    rw [download_video_fs]
    exact mem_makedirs.mpr (Or.inr hq)
  · simp only [download_video_fs, makedirs_idem]

/-- C8 witness: the default output directory is among the directories
existing after a concrete download run. -/
theorem output_dir_creation_idempotent_witness :
    ["downloads"] ∈ (download_video [] "u" "downloads" "best" false (Except.ok 0)).fs :=
  (output_dir_creation_idempotent [] "u" "downloads" "best" false (Except.ok 0)).2.1
    ["downloads"] (by decide)

/-- C10: with the tool present and a valid URL, `--info` takes precedence
over `--list-formats`: the run issues only the probe and the metadata
query, never the format-listing command; and `--list-formats` in turn
takes precedence over download: the run issues only the probe and the
listing command. -/
theorem info_precedence (args : Args) (w : World) (v : String)
    (h : w.probe = some v) (hv : validate_youtube_url args.url = true) :
    (args.info = true →
      (runMain args w).calls = [versionCmd, infoCmd args.url] ∧
      listCmd args.url ∉ (runMain args w).calls) ∧
    (args.info = false → args.list_formats = true →
      (runMain args w).calls = [versionCmd, listCmd args.url]) := by
  constructor
  · intro hi
    have hc := runMain_info_calls args w v h hv hi
    refine ⟨hc, ?_⟩
    rw [hc]
    simp [versionCmd, listCmd, infoCmd]
  · intro hi hl
    rw [runMain_list args w v h hv hi hl]

/-- C10 witness: both flags set — only the metadata query runs; with
`--info` off, only the listing command runs. -/
theorem info_precedence_witness :
    (runMain ⟨"https://youtu.be/abc", "downloads", "best", false, true, true⟩
        ⟨some "2025.01.01", ⟨0, "", ""⟩, fun _ => some [], ⟨0, "", ""⟩, Except.ok 0, []⟩).calls =
      [versionCmd, infoCmd "https://youtu.be/abc"] ∧
    listCmd "https://youtu.be/abc" ∉
      (runMain ⟨"https://youtu.be/abc", "downloads", "best", false, true, true⟩
        ⟨some "2025.01.01", ⟨0, "", ""⟩, fun _ => some [], ⟨0, "", ""⟩, Except.ok 0, []⟩).calls ∧
    (runMain ⟨"https://youtu.be/abc", "downloads", "best", false, true, false⟩
        ⟨some "2025.01.01", ⟨0, "", ""⟩, fun _ => some [], ⟨0, "", ""⟩, Except.ok 0, []⟩).calls =
      [versionCmd, listCmd "https://youtu.be/abc"] := by
  have h1 := (info_precedence ⟨"https://youtu.be/abc", "downloads", "best", false, true, true⟩
    ⟨some "2025.01.01", ⟨0, "", ""⟩, fun _ => some [], ⟨0, "", ""⟩, Except.ok 0, []⟩
    "2025.01.01" rfl (by decide)).1 rfl
  have h2 := (info_precedence ⟨"https://youtu.be/abc", "downloads", "best", false, true, false⟩
    ⟨some "2025.01.01", ⟨0, "", ""⟩, fun _ => some [], ⟨0, "", ""⟩, Except.ok 0, []⟩
    "2025.01.01" rfl (by decide)).2 rfl rfl
  exact ⟨h1.1, h1.2, h2⟩

/-- C6 witness: exit status 1 and a raised exception, concretely. -/
theorem download_success_iff_zero_exit_witness :
    ("[!] Download error: Command returned non-zero exit status 1."
      ∈ (download_video [] "u" "downloads" "best" false (Except.ok 1)).prints) ∧
    ("[!] Unexpected error: boom"
      ∈ (download_video [] "u" "downloads" "best" false (Except.error "boom")).prints) :=
  ⟨(download_success_iff_zero_exit [] "u" "downloads" "best" false (Except.ok 1)).2.1
      1 rfl (by decide),
   (download_success_iff_zero_exit [] "u" "downloads" "best" false (Except.error "boom")).2.2
      "boom" rfl⟩
